import Mathlib

/-!
Shallow embedding of the SmartCard repository (similarity service, theme and
session models, session routes), together with theorems settling the frozen
claims about its specification.

Modelling conventions:
- Python float arithmetic on small integer ratios is modelled by exact
  rational arithmetic over the type of rationals.
- Python runtime failures (AttributeError on a missing attribute, NameError
  on an unbound name, TypeError, ...) are modelled with an explicit error
  type; a function that can fail returns an Except value.
- Python sets of strings are modelled by Finset String; Python str.lower,
  str.strip, str.upper and str.split are modelled on the character ranges
  the program actually manipulates (ASCII and the Latin-1 letters kept by
  the preprocessing regex).
-/

/-- Runtime errors of the Python fragments that are modelled. -/
inductive PyError where
  | attributeError
  | nameError
  | typeError
  | valueError
deriving DecidableEq, Repr

-- ********************************************************
-- Python string primitives used by the embedded code
-- ********************************************************

/-- Characters matched by the regex class backslash-s and by str.split with
no separator, restricted to ASCII (space, tab, newline, carriage return,
vertical tab, form feed). -/
def isPySpace (c : Char) : Bool :=
  c.toNat = 32 || c.toNat = 9 || c.toNat = 10 || c.toNat = 13 ||
    c.toNat = 11 || c.toNat = 12

/-- Latin-1 fragment of Python str.lower, applied character by character:
ASCII capitals and the accented capitals U+00C0 to U+00DE (except the
multiplication sign U+00D7) are shifted to their lowercase forms. -/
def pyLowerChar (c : Char) : Char :=
  if 65 ≤ c.toNat ∧ c.toNat ≤ 90 then Char.ofNat (c.toNat + 32)
  else if 192 ≤ c.toNat ∧ c.toNat ≤ 222 ∧ c.toNat ≠ 215 then
    Char.ofNat (c.toNat + 32)
  else c

/-- Latin-1 fragment of Python str.lower. -/
def pyLower (s : String) : String := ⟨s.data.map pyLowerChar⟩

/-- ASCII fragment of Python str.upper. -/
def pyUpperChar (c : Char) : Char :=
  if 97 ≤ c.toNat ∧ c.toNat ≤ 122 then Char.ofNat (c.toNat - 32) else c

/-- ASCII fragment of Python str.upper. -/
def pyUpper (s : String) : String := ⟨s.data.map pyUpperChar⟩

/-- Python str.strip with no argument: remove leading and trailing
whitespace. -/
def pyStrip (s : String) : String :=
  ⟨((s.data.dropWhile isPySpace).reverse.dropWhile isPySpace).reverse⟩

/-- Python str.split with no argument: split on runs of whitespace and
discard empty pieces.  The accumulator holds the current token reversed. -/
def pySplitAux : List Char → List Char → List String
  | [], acc => if acc = [] then [] else [⟨acc.reverse⟩]
  | c :: cs, acc =>
      if isPySpace c then
        if acc = [] then pySplitAux cs []
        else ⟨acc.reverse⟩ :: pySplitAux cs []
      else pySplitAux cs (c :: acc)

/-- Python str.split with no argument. -/
def pySplit (s : String) : List String := pySplitAux s.data []

-- ********************************************************
-- similarityService.py : class SimilarityService
-- ********************************************************

/-- The class attribute SimilarityService.STOP_WORDS
(similarityService.py lines 24-39), a Python set literal of French and
English stop words, modelled as the list of its member strings. -/
def STOP_WORDS : List String :=
  [ -- Français
   "le", "la", "les", "un", "une", "des", "de", "du", "et", "ou", "mais",
   "donc", "or", "ni", "car", "ce", "ces", "mon", "ton", "son", "ma", "ta",
   "sa", "mes", "tes", "ses", "notre", "votre", "leur", "nos", "vos", "leurs",
   "qui", "que", "quoi", "dont", "où", "dans", "sur", "sous", "avec", "sans",
   "pour", "par", "est", "sont", "être", "avoir", "il", "elle", "on", "nous",
   "vous", "ils", "elles", "je", "tu", "à", "au", "aux", "en", "y", "plus",
   -- Anglais
   "the", "a", "an", "and", "or", "but", "in", "on", "at", "to", "for",
   "of", "with", "by", "from", "is", "are", "was", "were", "be", "been",
   "being", "have", "has", "had", "do", "does", "did", "will", "would",
   "should", "could", "may", "might", "must", "can", "it", "this", "that",
   "these", "those", "i", "you", "he", "she", "we", "they", "what", "which",
   "who", "when", "where", "why", "how"]

/-- Characters kept by the substitution re.sub applied in preprocess_text:
the class consists of a-z, the Latin-1 range U+00E0 to U+00FF, the digits
and whitespace; every other character is replaced by a space. -/
def keptChar (c : Char) : Bool :=
  (97 ≤ c.toNat && c.toNat ≤ 122) || (224 ≤ c.toNat && c.toNat ≤ 255) ||
    (48 ≤ c.toNat && c.toNat ≤ 57) || isPySpace c

/-- SimilarityService.preprocess_text (similarityService.py lines 46-73).
The source lowercases the text, replaces every character outside the kept
class by a space, splits on whitespace into the local variable words, binds
the filtered list (stop words and tokens of length at most 2 removed) to
the distinct local variable word, and then returns words — the UNFILTERED
list.  The embedding reproduces this: the filtered list is computed and
discarded exactly as in the source. -/
def preprocess_text (text : String) : List String :=
  let lowered := pyLower text
  let cleaned : String := ⟨lowered.data.map (fun c => if keptChar c then c else ' ')⟩
  let words := pySplit cleaned
  let _word := words.filter
    (fun w => !(STOP_WORDS.contains w) && decide (2 < w.length))
  words

/-- The filtering that the source computes into the dead local variable
word, i.e. the token list the specification describes for
preprocess_text. -/
def preprocess_text_filtered (text : String) : List String :=
  (preprocess_text text).filter
    (fun w => !(STOP_WORDS.contains w) && decide (2 < w.length))

/-- The attribute names the class body of SimilarityService actually
defines (similarityService.py lines 20-279). -/
def similarityServiceAttrs : List String :=
  ["STOP_WORDS", "preprocess_text", "extact_keywords",
   "calcullate_text_similarity", "calculate_keyword_ooverlap",
   "find_matching_questions", "find_matching_theme"]

/-- SimilarityService.calcullate_text_similarity
(similarityService.py lines 108-143).  Its first statement evaluates
SimilarityService.extract_keywords(text1, top_n=30); the class defines the
method under the name extact_keywords and has no attribute named
extract_keywords (see similarityServiceAttrs), so Python raises
AttributeError at the attribute lookup before any other work, on every
pair of inputs. -/
def calcullate_text_similarity (_text1 _text2 : String) : Except PyError ℚ :=
  Except.error PyError.attributeError

/-- Normalisation applied to each keyword by
calculate_keyword_ooverlap: k.lower().strip(). -/
def normKeyword (k : String) : String := pyStrip (pyLower k)

/-- The set built from a keyword list by calculate_keyword_ooverlap:
set(k.lower().strip() for k in ks). -/
def kwSet (ks : List String) : Finset String := (ks.map normKeyword).toFinset

/-- SimilarityService.calculate_keyword_ooverlap
(similarityService.py lines 146-175): returns 0.0 when either list is
empty (Python falsiness of an empty list), otherwise the intersection size
of the two normalised sets divided by the size of the smaller set. -/
def calculate_keyword_ooverlap (text_keywords target_keywords : List String) : ℚ :=
  if text_keywords = [] ∨ target_keywords = [] then 0
  else
    let set1 := kwSet text_keywords
    let set2 := kwSet target_keywords
    let intersection := set1 ∩ set2
    let min_size := min set1.card set2.card
    if min_size = 0 then 0
    else (intersection.card : ℚ) / (min_size : ℚ)

/-- A theme dictionary as consumed by find_matching_theme: keys id, name,
keywords. -/
structure ThemeDict where
  id : String
  name : String
  keywords : List String
deriving DecidableEq, Repr

/-- SimilarityService.find_matching_theme
(similarityService.py lines 238-279).  With an empty theme list the loop
body never runs and the initial best_match = None is returned.  As soon as
one theme is iterated, the body evaluates
SimilarityService.calculate_keyword_overlap(...); the class defines the
method under the name calculate_keyword_ooverlap and has no attribute
named calculate_keyword_overlap (see similarityServiceAttrs), so Python
raises AttributeError on the first iteration. -/
def find_matching_theme (_pdf_keywords : List String) (themes : List ThemeDict)
    (_threshold : ℚ) : Except PyError (Option (ThemeDict × ℚ)) :=
  match themes with
  | [] => Except.ok none
  | _ :: _ => Except.error PyError.attributeError

/-- A question dictionary as consumed by find_matching_questions: keys id
and question_text. -/
structure QuestionDict where
  id : String
  question_text : String
deriving DecidableEq, Repr

/-- SimilarityService.find_matching_questions
(similarityService.py lines 182-231).  Its first statement evaluates
SimilarityService.extract_keywords(pdf_content, top_n=50); the class has
no attribute named extract_keywords (see similarityServiceAttrs), so
Python raises AttributeError before the question loop, on every input. -/
def find_matching_questions (_pdf_content : String) (_questions : List QuestionDict)
    (_threshold : ℚ) : Except PyError (List (QuestionDict × ℚ)) :=
  Except.error PyError.attributeError

/-- The misspelt names looked up by the similarity-service bodies are
indeed absent from the class attribute set. -/
theorem misspelt_attrs_absent :
    similarityServiceAttrs.contains "extract_keywords" = false ∧
    similarityServiceAttrs.contains "calculate_keyword_overlap" = false ∧
    similarityServiceAttrs.contains "calculate_text_similarity" = false := by
  decide

-- ********************************************************
-- themeModel.py : Theme.matches_keywords
-- ********************************************************

/-- The set built from a keyword list by Theme.matches_keywords
(themeModel.py lines 94-95): whitespace-only entries are dropped by the
generator guard if k.strip(), the rest are normalised with
k.lower().strip(). -/
def matchesKwSet (ks : List String) : Finset String :=
  ((ks.filter (fun k => !(pyStrip k).isEmpty)).map normKeyword).toFinset

/-- Theme.matches_keywords (themeModel.py lines 72-106), with the keyword
column of the theme passed explicitly.  Returns False when either list is
empty or the normalised search set is empty; otherwise compares the match
ratio — intersection size divided by the size of the SEARCH set — against
the threshold. -/
def matches_keywords (theme_keywords search_keywords : List String)
    (threshold : ℚ) : Bool :=
  if search_keywords = [] ∨ theme_keywords = [] then false
  else
    let search_set := matchesKwSet search_keywords
    let theme_set := matchesKwSet theme_keywords
    if search_set = ∅ then false
    else decide (threshold ≤ (((search_set ∩ theme_set).card : ℚ) / (search_set.card : ℚ)))

-- ********************************************************
-- sessionModel.py : class Session
-- ********************************************************

/-- The mutable state of a Session instance that complete_session,
get_success_rate and the update route touch.  Timestamps are modelled as
natural numbers; the nullable integer columns as Option Int. -/
structure SessionState where
  user_id : String
  theme_id : Option String
  questions_ids : List String
  questions_count : Nat
  score : Option Int
  max_score : Option Int
  started_at : Nat
  completed_at : Option Nat
  updated_at : Nat
deriving DecidableEq, Repr

/-- Session.complete_session (sessionModel.py lines 84-95): with no guard
of any kind it sets completed_at to the current time, overwrites score and
max_score with the arguments, and refreshes updated_at.  The current time
is passed explicitly as now. -/
def complete_session (s : SessionState) (score max_score : Int) (now : Nat) :
    SessionState :=
  { s with completed_at := some now, score := some score,
           max_score := some max_score, updated_at := now }

/-- Session.get_success_rate (sessionModel.py lines 97-108): returns 0.0
when completed_at is unset or max_score is None or 0 (Python falsiness),
otherwise evaluates (score / max_score) * 100 — which raises TypeError
when score is None. -/
def get_success_rate (s : SessionState) : Except PyError ℚ :=
  match s.completed_at, s.max_score with
  | none, _ => Except.ok 0
  | some _, none => Except.ok 0
  | some _, some m =>
      if m = 0 then Except.ok 0
      else
        match s.score with
        | none => Except.error PyError.typeError
        | some sc => Except.ok ((sc : ℚ) / (m : ℚ) * 100)

-- ********************************************************
-- sessionRoutes.py : PUT update_session
-- ********************************************************

/-- update_session (sessionRoutes.py lines 127-150), restricted to its
effect on the session state: when the JSON body contains both the score
and the max_score keys it calls complete_session with them — with no check
that the session is still open — and otherwise leaves the session
unchanged. -/
def update_session (s : SessionState) (data_score data_max_score : Option Int)
    (now : Nat) : SessionState :=
  match data_score, data_max_score with
  | some sc, some m => complete_session s sc m now
  | _, _ => s

-- ********************************************************
-- sessionRoutes.py : POST create_session_with_pdf
-- ********************************************************

/-- An uploaded file as seen through request.files. -/
structure FileUpload where
  filename : String
deriving DecidableEq, Repr

/-- The multipart form fields read by create_session_with_pdf before its
try block.  questions_count is not modelled because the route fails before
it is ever used successfully. -/
structure PdfForm where
  user_id : Option String
  session_type : Option String
  pdf_file : Option FileUpload
deriving DecidableEq, Repr

/-- Outcome of one request to the create-with-pdf route. -/
inductive PdfRouteResult where
  | abort (code : Nat)
  | pyError (e : PyError)
  | created (questions_ids : List String) (questions_count : Nat)
deriving DecidableEq, Repr

/-- create_session_with_pdf (sessionRoutes.py lines 177-386), modelled up
to the point where every control path has left the function.  Reading the
source in order:
- line 205: a falsy user_id triggers abort(400, desciption=...); the
  keyword desciption is not a parameter of the exception constructor, so
  the call raises TypeError;
- line 208: an unknown user aborts with 404;
- line 213: a session type other than QUIZZ or FLASHCARD (after upper)
  aborts with 400;
- lines 217-222: a missing file or an empty filename aborts with 400;
- line 224: pdf_file.filename.lower().endwith('.pdf') — str has no method
  endwith (the method is endswith), so every request that reaches this
  line raises AttributeError.  (The next line executed would have been
  line 230, whose unbound name questions_ocount raises NameError.)
No path reaches the session-creating code, so the created constructor
never occurs. -/
def create_session_with_pdf (users : List String) (req : PdfForm) :
    PdfRouteResult :=
  match req.user_id with
  | none => PdfRouteResult.pyError PyError.typeError
  | some uid =>
      if uid.isEmpty then PdfRouteResult.pyError PyError.typeError
      else if !(users.contains uid) then PdfRouteResult.abort 404
      else
        let session_type := pyUpper ((req.session_type).getD "")
        if session_type ≠ "QUIZZ" ∧ session_type ≠ "FLASHCARD" then
          PdfRouteResult.abort 400
        else
          match req.pdf_file with
          | none => PdfRouteResult.abort 400
          | some f =>
              if f.filename.isEmpty then PdfRouteResult.abort 400
              else PdfRouteResult.pyError PyError.attributeError

-- ********************************************************
-- Persistence model for the pipeline region (DBStorage)
-- ********************************************************

/-- The database as touched by the session-assembly pipeline: committed
rows and the pending rows of the current transaction.  storage.new adds a
pending row; storage.save commits (DBStorage.save calls
session.commit()); storage.rollback discards only the pending rows —
committed rows are unaffected. -/
structure Store where
  themes : List String
  questions : List String
  sessions : List String
  pendingThemes : List String
  pendingQuestions : List String
  pendingSessions : List String
deriving DecidableEq, Repr

/-- DBStorage.save (DBStorage.py lines 120-130): commits the pending rows. -/
def storageSave (st : Store) : Store :=
  { themes := st.themes ++ st.pendingThemes,
    questions := st.questions ++ st.pendingQuestions,
    sessions := st.sessions ++ st.pendingSessions,
    pendingThemes := [], pendingQuestions := [], pendingSessions := [] }

/-- DBStorage.rollback: discards the pending rows of the open transaction;
rows already committed by an earlier save stay in the database. -/
def storageRollback (st : Store) : Store :=
  { st with pendingThemes := [], pendingQuestions := [], pendingSessions := [] }

/-- storage.new on a Theme row. -/
def storageNewTheme (st : Store) (t : String) : Store :=
  { st with pendingThemes := st.pendingThemes ++ [t] }

/-- The helper _create_questions_from_generated
(sessionRoutes.py lines 389-444).
Its body initialises question_ids = [] and then iterates
for q_data in generated_questions — but the parameter is named
generated_questions_from_generated, and no binding named
generated_questions exists, so Python raises NameError before any
Question or Answer is added to the store, on every call. -/
def create_questions_from_generated (st : Store)
    (_generated_questions_from_generated : List String)
    (_theme_id _sesion_type : String) :
    Store × Except PyError (List String) :=
  (st, Except.error PyError.nameError)

/-- The exception handlers of create_session_with_pdf
(sessionRoutes.py lines 380-386).  A ValueError is matched by the first
clause, but its body starts with sotrage.rollback() — the name sotrage is
unbound (the object is called storage) — so the clause raises NameError
before any rollback or abort.  Any other exception reaches
except Execption — an undefined name — so evaluating the clause raises
NameError and storage.rollback() on line 385 never runs.  In both cases
the request fails with NameError and the store is left exactly as the
failing step left it: the handler never rolls anything back.  The if
mirrors the two except clauses of the source; storageRollback is never
applied. -/
def sessionRouteExceptHandler (e : PyError) (st : Store) :
    Store × PdfRouteResult :=
  if e = PyError.valueError then (st, PdfRouteResult.pyError PyError.nameError)
  else (st, PdfRouteResult.pyError PyError.nameError)

/-- create_session_with_pdf threaded through the database state.  The
code the route executes before failing — lines 203 to 224 of
sessionRoutes.py — performs only reads (storage.get on line 207,
request.form and request.files lookups); it contains no storage.new and
no storage.save, and every path has raised or aborted by line 224 (see
create_session_with_pdf), so the try block of lines 235-386, which holds
every write of the pipeline, is never entered and the store is returned
exactly as it was received. -/
def create_session_with_pdf_db (st : Store) (users : List String)
    (req : PdfForm) : Store × PdfRouteResult :=
  (st, create_session_with_pdf users req)

/-- A database with no rows and no pending transaction. -/
def emptyStore : Store :=
  { themes := [], questions := [], sessions := [],
    pendingThemes := [], pendingQuestions := [], pendingSessions := [] }

-- ********************************************************
-- Claim theorems
-- ********************************************************

/-- Claim C1.  The claim states that calcullate_text_similarity is total
and returns a value in the unit interval, returning 0.0 when a keyword
set is empty.  In the code the very first statement of the function looks
up the attribute extract_keywords on SimilarityService, which does not
exist (the method is spelt extact_keywords), so the function raises
AttributeError for every pair of inputs — including the empty strings —
and never returns a value at all. -/
theorem c1_calcullate_text_similarity_always_raises (t1 t2 : String) :
    calcullate_text_similarity t1 t2 = Except.error PyError.attributeError := rfl

/-- Claim C2.  The claim states that preprocess_text removes stop words
and tokens of length at most 2.  On the input "Le chat" the code returns
["le", "chat"], keeping the token le even though it is a member of
STOP_WORDS and has length 2: the source computes the filtered list into
the dead local variable word and returns the unfiltered words.  The list
the claim describes at this input is ["chat"]
(preprocess_text_filtered). -/
theorem c2_preprocess_text_keeps_stopwords :
    preprocess_text "Le chat" = ["le", "chat"] ∧
    STOP_WORDS.contains "le" = true ∧
    "le".length ≤ 2 ∧
    preprocess_text_filtered "Le chat" = ["chat"] := by
  refine ⟨by decide, by decide, by decide, by decide⟩

/-- Claim C4.  The claim states that find_matching_theme returns the best
theme at or above the threshold and never raises.  In the code the loop
body calls SimilarityService.calculate_keyword_overlap, an attribute that
does not exist (the method is spelt calculate_keyword_ooverlap), so the
function raises AttributeError as soon as the theme list is non-empty —
in particular on a theme whose keywords coincide with the candidate
keywords, which the claim says must be returned. -/
theorem c4_find_matching_theme_raises_on_any_theme
    (k : List String) (thr : ℚ) (t : ThemeDict) (ts : List ThemeDict) :
    find_matching_theme k (t :: ts) thr = Except.error PyError.attributeError := rfl

/-- Claim C5.  The claim states that find_matching_questions returns the
candidates scoring at least the threshold, sorted by descending score.
In the code the first statement evaluates
SimilarityService.extract_keywords (an attribute that does not exist),
so the function raises AttributeError on every input — even an empty
candidate list — and never returns a list. -/
theorem c5_find_matching_questions_always_raises
    (content : String) (qs : List QuestionDict) (thr : ℚ) :
    find_matching_questions content qs thr = Except.error PyError.attributeError := rfl

/-- The normalised keyword set of a list is empty exactly when the list
is empty. -/
theorem kwSet_eq_empty_iff (A : List String) : kwSet A = ∅ ↔ A = [] := by
  simp [kwSet]

/-- Helper: for non-empty inputs calculate_keyword_ooverlap is exactly the
intersection size over the size of the smaller normalised set. -/
theorem ooverlap_eq (A B : List String) (hA : A ≠ []) (hB : B ≠ []) :
    calculate_keyword_ooverlap A B =
      ((kwSet A ∩ kwSet B).card : ℚ) /
        ((min (kwSet A).card (kwSet B).card : ℕ) : ℚ) := by
  have hmin : min (kwSet A).card (kwSet B).card ≠ 0 := by
    intro h
    rcases Nat.min_eq_zero_iff.mp h with h | h
    · exact hA ((kwSet_eq_empty_iff A).mp (Finset.card_eq_zero.mp h))
    · exact hB ((kwSet_eq_empty_iff B).mp (Finset.card_eq_zero.mp h))
  unfold calculate_keyword_ooverlap
  rw [if_neg (by simp [hA, hB])]
  simp only [if_neg hmin]

/-- The normalised keyword set of a non-empty list has positive size. -/
theorem kwSet_card_pos (A : List String) (hA : A ≠ []) : 0 < (kwSet A).card :=
  Nat.pos_of_ne_zero fun h => hA ((kwSet_eq_empty_iff A).mp (Finset.card_eq_zero.mp h))

/-- The overlap score is never negative. -/
theorem ooverlap_nonneg (A B : List String) : 0 ≤ calculate_keyword_ooverlap A B := by
  by_cases hA : A = []
  · simp [calculate_keyword_ooverlap, hA]
  by_cases hB : B = []
  · simp [calculate_keyword_ooverlap, hB]
  rw [ooverlap_eq A B hA hB]
  exact div_nonneg (Nat.cast_nonneg _) (Nat.cast_nonneg _)

/-- The overlap score never exceeds one: the intersection is contained in
both normalised sets, so its size is at most the smaller size. -/
theorem ooverlap_le_one (A B : List String) : calculate_keyword_ooverlap A B ≤ 1 := by
  by_cases hA : A = []
  · simp [calculate_keyword_ooverlap, hA]
  by_cases hB : B = []
  · simp [calculate_keyword_ooverlap, hB]
  rw [ooverlap_eq A B hA hB]
  have hpos : 0 < min (kwSet A).card (kwSet B).card :=
    lt_min (kwSet_card_pos A hA) (kwSet_card_pos B hB)
  have hle : (kwSet A ∩ kwSet B).card ≤ min (kwSet A).card (kwSet B).card :=
    le_min (Finset.card_le_card Finset.inter_subset_left)
      (Finset.card_le_card Finset.inter_subset_right)
  rw [div_le_one (by exact_mod_cast hpos)]
  exact_mod_cast hle

/-- The overlap of a non-empty list with itself is one. -/
theorem ooverlap_self (A : List String) (hA : A ≠ []) :
    calculate_keyword_ooverlap A A = 1 := by
  rw [ooverlap_eq A A hA hA, Finset.inter_self, min_self]
  exact div_self (by exact_mod_cast (kwSet_card_pos A hA).ne')

/-- Claim C3.  calculate_keyword_ooverlap returns 0 when either list is
empty, always lies in the unit interval, equals the intersection size of
the lowercase-trimmed sets divided by the smaller set size on non-empty
lists, and gives score 1 to any non-empty list against itself. -/
theorem c3_keyword_ooverlap_spec (A B : List String) :
    (A = [] ∨ B = [] → calculate_keyword_ooverlap A B = 0) ∧
    0 ≤ calculate_keyword_ooverlap A B ∧
    calculate_keyword_ooverlap A B ≤ 1 ∧
    (A ≠ [] → B ≠ [] →
      calculate_keyword_ooverlap A B =
        ((kwSet A ∩ kwSet B).card : ℚ) /
          ((min (kwSet A).card (kwSet B).card : ℕ) : ℚ)) ∧
    (A ≠ [] → calculate_keyword_ooverlap A A = 1) := by
  refine ⟨?_, ooverlap_nonneg A B, ooverlap_le_one A B, ?_, ooverlap_self A⟩
  · intro h
    unfold calculate_keyword_ooverlap
    rw [if_pos h]
  · intro hA hB
    exact ooverlap_eq A B hA hB

/-- Witness for claim C3 at concrete inputs: overlap with an empty list is
0, self-overlap of a singleton is 1, and the score of two disjoint
singletons is non-negative. -/
theorem c3_keyword_ooverlap_spec_witness :
    calculate_keyword_ooverlap ["x"] [] = 0 ∧
    calculate_keyword_ooverlap ["x"] ["x"] = 1 ∧
    0 ≤ calculate_keyword_ooverlap ["x"] ["y"] :=
  ⟨(c3_keyword_ooverlap_spec ["x"] []).1 (Or.inr rfl),
   (c3_keyword_ooverlap_spec ["x"] ["x"]).2.2.2.2 (by decide),
   (c3_keyword_ooverlap_spec ["x"] ["y"]).2.1⟩

/-- Claim C6.  The claim describes the question-id list of the session a
successful run creates.  No run of the route succeeds: every control path
of create_session_with_pdf ends in an abort or in a raised error — in
particular every request carrying a valid user, a valid session type and
a named PDF file dies at the misspelt string method endwith — so the
route never reaches the code that creates a session. -/
theorem c6_create_session_with_pdf_never_creates
    (users : List String) (req : PdfForm) (ids : List String) (n : Nat) :
    create_session_with_pdf users req ≠ PdfRouteResult.created ids n := by
  rcases req with ⟨uido, sto, pfo⟩
  cases uido with
  | none => simp [create_session_with_pdf]
  | some uid =>
      simp only [create_session_with_pdf]
      repeat' split
      all_goals simp

/-- Claim C7.  The claim says a failing collaborator step leaves no
partial commit: nothing persisted, no Session created.  Every run of the
route satisfies this, and more: create_session_with_pdf fails during
validation (at the latest with AttributeError at the misspelt endwith on
line 224), before any external-collaborator step and before any
storage.new or storage.save, so the database comes back exactly as it
was and no Session is ever created; and the question-creation helper
itself fails with NameError before writing anything, so even a direct
call to it persists nothing.  The collaborator steps are unreachable, so
every run — in particular every run the claim quantifies over — aborts
with the store untouched. -/
theorem c7_no_partial_commit (st : Store) (users : List String)
    (req : PdfForm) (gqs : List String) (tid ty : String)
    (ids : List String) (n : Nat) :
    (create_session_with_pdf_db st users req).1 = st ∧
    (create_session_with_pdf_db st users req).2 ≠
        PdfRouteResult.created ids n ∧
    (create_questions_from_generated st gqs tid ty).1 = st ∧
    (create_questions_from_generated st gqs tid ty).2 =
        Except.error PyError.nameError := by
  refine ⟨rfl, ?_, rfl, rfl⟩
  show create_session_with_pdf users req ≠ PdfRouteResult.created ids n
  rcases req with ⟨uido, sto, pfo⟩
  cases uido with
  | none => simp [create_session_with_pdf]
  | some uid =>
      simp only [create_session_with_pdf]
      repeat' split
      all_goals simp

/-- Witness for claim C7 at a concrete request against the empty
database: a valid user, session type QUIZZ and a named PDF file leave the
store empty and create no session. -/
theorem c7_no_partial_commit_witness :
    (create_session_with_pdf_db emptyStore ["u2"]
        ⟨some "u2", some "quizz", some ⟨"cours.pdf"⟩⟩).1 = emptyStore ∧
    (create_session_with_pdf_db emptyStore ["u2"]
        ⟨some "u2", some "quizz", some ⟨"cours.pdf"⟩⟩).2 ≠
        PdfRouteResult.created ["q9"] 1 ∧
    (create_questions_from_generated emptyStore ["g1"] "t1" "QUIZZ").1 =
        emptyStore ∧
    (create_questions_from_generated emptyStore ["g1"] "t1" "QUIZZ").2 =
        Except.error PyError.nameError :=
  c7_no_partial_commit emptyStore ["u2"]
    ⟨some "u2", some "quizz", some ⟨"cours.pdf"⟩⟩ ["g1"] "t1" "QUIZZ" ["q9"] 1

-- ********************************************************
-- Sessions: concrete states for the claims about the model
-- ********************************************************

/-- A freshly created session: no score, no max score, not completed. -/
def blankSession : SessionState :=
  { user_id := "u1", theme_id := none, questions_ids := [], questions_count := 0,
    score := none, max_score := none, started_at := 0, completed_at := none,
    updated_at := 0 }

/-- Claim C8, counterexample.  A session completed once with score 1 out
of 2 and then updated again through the PUT route with score 3 out of 4
(update_session applies complete_session with no completion guard) ends
with different score, max_score and completed_at: the three fields are not
immutable once set. -/
theorem c8_second_completion_mutates_counterexample :
    (update_session (complete_session blankSession 1 2 10) (some 3) (some 4) 20).score
        ≠ (complete_session blankSession 1 2 10).score ∧
    (update_session (complete_session blankSession 1 2 10) (some 3) (some 4) 20).max_score
        ≠ (complete_session blankSession 1 2 10).max_score ∧
    (update_session (complete_session blankSession 1 2 10) (some 3) (some 4) 20).completed_at
        ≠ (complete_session blankSession 1 2 10).completed_at := by
  decide

/-- Claim C8 as amended.  complete_session unconditionally overwrites
score, max_score and completed_at with its arguments; the PUT route calls
it whenever both keys are present in the body — also on an already
completed session — and leaves the session untouched when either key is
missing.  There is no immutability guard. -/
theorem c8_complete_session_overwrites (s : SessionState) (sc m : Int) (now : Nat) :
    (complete_session s sc m now).score = some sc ∧
    (complete_session s sc m now).max_score = some m ∧
    (complete_session s sc m now).completed_at = some now ∧
    update_session s (some sc) (some m) now = complete_session s sc m now ∧
    (∀ dsc dm : Option Int, dsc = none ∨ dm = none →
        update_session s dsc dm now = s) := by
  refine ⟨rfl, rfl, rfl, rfl, ?_⟩
  rintro dsc dm (rfl | rfl)
  · cases dm <;> rfl
  · cases dsc <;> rfl

/-- Witness for claim C8 as amended, at a concrete session. -/
theorem c8_complete_session_overwrites_witness :
    (complete_session blankSession 7 9 5).score = some 7 ∧
    update_session (complete_session blankSession 7 9 5) none (some 1) 6 =
      complete_session blankSession 7 9 5 :=
  ⟨(c8_complete_session_overwrites blankSession 7 9 5).1,
   (c8_complete_session_overwrites (complete_session blankSession 7 9 5) 7 9 6).2.2.2.2
     none (some 1) (Or.inl rfl)⟩

/-- A completed session whose max_score is 0: completed_at is set, score
is 5, max_score is 0. -/
def completedZeroMaxSession : SessionState :=
  { blankSession with completed_at := some 5, score := some 5, max_score := some 0 }

/-- Claim C9, counterexample.  The claim says a completed session gets
(score / max_score) * 100, i.e. the returned value r satisfies
r * max_score = score * 100 under exact division.  For the completed
session with score 5 and max_score 0 the code returns 0.0 (its falsiness
test on max_score fires), and no rational r returned can satisfy
r * 0 = 5 * 100: the claim fails on completed sessions with zero
max_score. -/
theorem c9_zero_max_counterexample :
    completedZeroMaxSession.completed_at ≠ none ∧
    ¬ ∃ r : ℚ, get_success_rate completedZeroMaxSession = Except.ok r ∧
        r * ((0 : ℤ) : ℚ) = ((5 : ℤ) : ℚ) * 100 := by
  refine ⟨by decide, ?_⟩
  rintro ⟨r, hr, hmul⟩
  have h0 : get_success_rate completedZeroMaxSession = Except.ok 0 := rfl
  rw [h0] at hr
  have hr0 : (0 : ℚ) = r := Except.ok.inj hr
  rw [← hr0] at hmul
  norm_num at hmul

/-- Claim C9 as amended.  get_success_rate returns 0 when the session is
not completed, and also when max_score is unset or 0; when the session is
completed with a set score and a set non-zero max_score it returns the
exact value of (score / max_score) * 100. -/
theorem c9_get_success_rate_spec (s : SessionState) :
    (s.completed_at = none → get_success_rate s = Except.ok 0) ∧
    (s.max_score = none → get_success_rate s = Except.ok 0) ∧
    (s.max_score = some 0 → get_success_rate s = Except.ok 0) ∧
    (∀ sc m : ℤ, s.completed_at ≠ none → s.score = some sc →
      s.max_score = some m → m ≠ 0 →
      ∃ r : ℚ, get_success_rate s = Except.ok r ∧ r * (m : ℚ) = (sc : ℚ) * 100) := by
  refine ⟨?_, ?_, ?_, ?_⟩
  · intro h
    simp [get_success_rate, h]
  · intro h
    cases hc : s.completed_at <;> simp [get_success_rate, h, hc]
  · intro h
    cases hc : s.completed_at <;> simp [get_success_rate, h, hc]
  · intro sc m hcomp hsc hm hm0
    cases hc : s.completed_at with
    | none => exact absurd hc hcomp
    | some t =>
        refine ⟨(sc : ℚ) / (m : ℚ) * 100, ?_, ?_⟩
        · simp [get_success_rate, hc, hsc, hm, hm0]
        · have hm' : (m : ℚ) ≠ 0 := Int.cast_ne_zero.mpr hm0
          field_simp

/-- A completed session with score 3 out of 4. -/
def completedThreeFourSession : SessionState :=
  { blankSession with completed_at := some 5, score := some 3, max_score := some 4 }

/-- Witness for claim C9 as amended, at a concrete completed session:
3 out of 4 gives a rate r with r * 4 = 300, i.e. 75 percent. -/
theorem c9_get_success_rate_spec_witness :
    ∃ r : ℚ, get_success_rate completedThreeFourSession = Except.ok r ∧
      r * ((4 : ℤ) : ℚ) = ((3 : ℤ) : ℚ) * 100 :=
  (c9_get_success_rate_spec completedThreeFourSession).2.2.2 3 4
    (by decide) rfl rfl (by decide)

/-- Claim C10, counterexample.  For the theme with keyword list ["a"],
search keywords ["a", "b"] and threshold 1: the service score
calculate_keyword_ooverlap(["a","b"], ["a"]) is 1 (intersection size 1
over min size 1), at the threshold, while Theme.matches_keywords divides
by the SEARCH set size and gets 1/2, below the threshold, and returns
False.  The two matching paths disagree on the match decision. -/
theorem c10_matches_disagrees_counterexample :
    ¬ (matches_keywords ["a"] ["a", "b"] 1 = true ↔
        (1 : ℚ) ≤ calculate_keyword_ooverlap ["a", "b"] ["a"]) := by
  have hov : calculate_keyword_ooverlap ["a", "b"] ["a"] = 1 := by
    rw [ooverlap_eq ["a", "b"] ["a"] (by decide) (by decide)]
    have e1 : (kwSet ["a", "b"] ∩ kwSet ["a"]).card = 1 := rfl
    have e2 : min (kwSet ["a", "b"]).card (kwSet ["a"]).card = 1 := rfl
    rw [e1, e2]
    norm_num
  have hm : matches_keywords ["a"] ["a", "b"] 1 = false := by
    simp only [matches_keywords]
    rw [if_neg (by simp)]
    rw [if_neg (by decide)]
    have e1 : (matchesKwSet ["a", "b"] ∩ matchesKwSet ["a"]).card = 1 := rfl
    have e2 : (matchesKwSet ["a", "b"]).card = 2 := rfl
    rw [e1, e2]
    rw [decide_eq_false_iff_not]
    norm_num
  intro h
  have hb := h.mpr (le_of_eq hov.symm)
  rw [hm] at hb
  exact Bool.false_ne_true hb

/-- When every keyword in the list survives str.strip, the set built by
Theme.matches_keywords coincides with the one built by
calculate_keyword_ooverlap. -/
theorem matchesKwSet_eq_kwSet (ks : List String)
    (h : ∀ k ∈ ks, (pyStrip k).isEmpty = false) :
    matchesKwSet ks = kwSet ks := by
  unfold matchesKwSet kwSet
  have hf : ks.filter (fun k => !(pyStrip k).isEmpty) = ks := by
    apply List.filter_eq_self.mpr
    intro a ha
    simp [h a ha]
  rw [hf]

/-- Claim C10 as amended.  The two matching paths agree exactly when the
search keywords are all non-blank, the theme keywords are all non-blank,
and the normalised search set is no larger than the normalised theme set —
because matches_keywords divides the intersection size by the search set
size while the service divides by the minimum of the two sizes. -/
theorem c10_matches_iff_service (tk sk : List String) (thr : ℚ)
    (htk : tk ≠ []) (hsk : sk ≠ [])
    (hbt : ∀ k ∈ tk, (pyStrip k).isEmpty = false)
    (hbs : ∀ k ∈ sk, (pyStrip k).isEmpty = false)
    (hcard : (kwSet sk).card ≤ (kwSet tk).card) :
    (matches_keywords tk sk thr = true ↔
      thr ≤ calculate_keyword_ooverlap sk tk) := by
  have hs : matchesKwSet sk = kwSet sk := matchesKwSet_eq_kwSet sk hbs
  have ht : matchesKwSet tk = kwSet tk := matchesKwSet_eq_kwSet tk hbt
  have hne : kwSet sk ≠ ∅ := fun h => hsk ((kwSet_eq_empty_iff sk).mp h)
  simp only [matches_keywords, hs, ht]
  rw [if_neg (by simp [hsk, htk])]
  rw [if_neg hne]
  rw [decide_eq_true_eq]
  rw [ooverlap_eq sk tk hsk htk, min_eq_left hcard]

/-- Witness for claim C10 as amended: a one-keyword search against a
two-keyword theme, threshold one half. -/
theorem c10_matches_iff_service_witness :
    (matches_keywords ["x", "y"] ["x"] (1 / 2) = true ↔
      (1 / 2 : ℚ) ≤ calculate_keyword_ooverlap ["x"] ["x", "y"]) :=
  c10_matches_iff_service ["x", "y"] ["x"] (1 / 2)
    (by decide) (by decide) (by decide) (by decide) (by decide)

/-- Witness for claim C6 at a concrete, fully valid request: an existing
user, session type QUIZZ, a named PDF file — the route still does not
create a session (it raises AttributeError at the misspelt filename
check). -/
theorem c6_create_session_with_pdf_never_creates_witness :
    create_session_with_pdf ["u1"]
        ⟨some "u1", some "quizz", some ⟨"notes.pdf"⟩⟩ ≠
      PdfRouteResult.created ["q1"] 1 :=
  c6_create_session_with_pdf_never_creates ["u1"]
    ⟨some "u1", some "quizz", some ⟨"notes.pdf"⟩⟩ ["q1"] 1
